import Mathlib

/-! Shallow embedding of the task-manager core: the `Task` data model
(`src/types/Task.ts`), the `TaskService` CRUD / filtering / statistics logic
(`src/services/TaskService.ts`), and the file-store utilities
(`src/utils/fileUtils.ts`).  JavaScript `Date` values are modelled as integer
millisecond timestamps; the nondeterministic inputs of the code (`new Date()`,
the generated id, the outcome of the store's `save` and of raw file writes)
are passed as explicit parameters.  The service state is the in-memory task
list; every operation returns its `ApiResponse` together with the state it
leaves behind. -/

namespace TaskManager

/-- Enum `TaskStatus` from `src/types/Task.ts`. -/
inductive TaskStatus where
  | TODO
  | IN_PROGRESS
  | COMPLETED
deriving DecidableEq, Repr

/-- Interface `Task` from `src/types/Task.ts`; `createdAt`, `updatedAt` and the
optional `dueDate` are millisecond timestamps. -/
structure Task where
  id : String
  title : String
  description : Option String
  status : TaskStatus
  createdAt : Int
  updatedAt : Int
  dueDate : Option Int
deriving DecidableEq, Repr

instance : Inhabited Task :=
  ⟨{ id := "", title := "", description := none, status := TaskStatus.TODO,
     createdAt := 0, updatedAt := 0, dueDate := none }⟩

/-- Interface `ApiResponse<T>` from `src/types/Task.ts`. -/
structure ApiResponse (α : Type) where
  success : Bool
  message : String
  data : Option α
  error : Option String
deriving DecidableEq, Repr

/-- Interface `CreateTaskInput`. -/
structure CreateTaskInput where
  title : String
  description : Option String
  dueDate : Option Int
deriving DecidableEq, Repr

/-- Interface `UpdateTaskInput`: a field is `some` exactly when the caller
provided it. -/
structure UpdateTaskInput where
  title : Option String
  description : Option String
  status : Option TaskStatus
  dueDate : Option Int
deriving DecidableEq, Repr

/-- Interface `TaskFilterOptions`. -/
structure TaskFilterOptions where
  status : Option TaskStatus
  hasDescription : Option Bool
  dueBefore : Option Int
  dueAfter : Option Int
deriving DecidableEq, Repr

/-- Model of JavaScript `String.prototype.trim`: drop leading and trailing
whitespace (structural recursion over the character list, so that concrete
instances evaluate). -/
def jsTrim (s : String) : String :=
  String.mk
    (((s.data.dropWhile Char.isWhitespace).reverse.dropWhile
        Char.isWhitespace).reverse)

/-- The task that `TaskService.createTask` builds after validation: trimmed
title, optionally trimmed description, status `TODO`, both timestamps `now`. -/
def newTaskOf (input : CreateTaskInput) (newId : String) (now : Int) : Task :=
  { id := newId
    title := jsTrim input.title
    description := input.description.map jsTrim
    status := TaskStatus.TODO
    createdAt := now
    updatedAt := now
    dueDate := input.dueDate }

/-- `TaskService.createTask`: rejects a title that trims to empty with
`INVALID_TITLE`, otherwise appends the new task and saves; a failed save makes
the `try` block throw, which the `catch` turns into a failure response (the
push is not undone). -/
def createTask (tasks : List Task) (input : CreateTaskInput) (newId : String)
    (now : Int) (saveOk : Bool) : ApiResponse Task × List Task :=
  if jsTrim input.title = "" then
    ({ success := false, message := "Task title. cannot be empty",
       data := none, error := some "INVALID_TITLE" }, tasks)
  else
    let newTask := newTaskOf input newId now
    let tasks2 := tasks ++ [newTask]
    if saveOk then
      ({ success := true, message := "Successfully create task",
         data := some newTask, error := none }, tasks2)
    else
      ({ success := false, message := "Error when creating task",
         data := none, error := some "Failed to save task" }, tasks2)

/-- `TaskService.getTaskById`: linear `find` by `==`; state is untouched. -/
def getTaskById (tasks : List Task) (id : String) : ApiResponse Task :=
  match tasks.find? (fun t => t.id == id) with
  | none =>
      { success := false, message := "Cannot find specified task",
        data := none, error := some "TASK_NOT_FOUND" }
  | some t =>
      { success := true, message := "Successfully got the task",
        data := some t, error := none }

/-- The merged task built inside `TaskService.updateTask`: spread of the
current task and the patch, then explicit `title`, `description` (each trimmed
when provided, kept otherwise) and `updatedAt := now`. -/
def applyUpdate (currentTask : Task) (updateData : UpdateTaskInput) (now : Int) :
    Task :=
  { id := currentTask.id
    title := (updateData.title.map jsTrim).getD currentTask.title
    description :=
      match updateData.description with
      | some d => some (jsTrim d)
      | none => currentTask.description
    status := updateData.status.getD currentTask.status
    createdAt := currentTask.createdAt
    updatedAt := now
    dueDate :=
      match updateData.dueDate with
      | some d => some d
      | none => currentTask.dueDate }

/-- `TaskService.updateTask`.  Note the not-found branch of the source returns
the error code string `INVALID_TITLE` (with message `Cannot find specified
task`), not `TASK_NOT_FOUND`. -/
def updateTask (tasks : List Task) (id : String) (updateData : UpdateTaskInput)
    (now : Int) (saveOk : Bool) : ApiResponse Task × List Task :=
  match tasks.findIdx? (fun t => t.id == id) with
  | none =>
      ({ success := false, message := "Cannot find specified task",
         data := none, error := some "INVALID_TITLE" }, tasks)
  | some taskIndex =>
      if updateData.title.any (fun t => jsTrim t == "") then
        ({ success := false, message := "Task title cannot be empty",
           data := none, error := some "INVALID_TITLE" }, tasks)
      else
        let currentTask := tasks.getD taskIndex default
        let updatedTask := applyUpdate currentTask updateData now
        let tasks2 := tasks.set taskIndex updatedTask
        if saveOk then
          ({ success := true, message := "Successfully udpate task",
             data := some updatedTask, error := none }, tasks2)
        else
          ({ success := false, message := "Error when updating task",
             data := none, error := some "Failed to save task" }, tasks2)

/-- `TaskService.deleteTask`: `findIndex`, then `splice(taskIndex, 1)`, then
save; a failed save is caught after the splice already happened. -/
def deleteTask (tasks : List Task) (id : String) (saveOk : Bool) :
    ApiResponse Bool × List Task :=
  match tasks.findIdx? (fun t => t.id == id) with
  | none =>
      ({ success := false, message := "Cannot find specified task",
         data := none, error := some "TASK_NOT_FOUND" }, tasks)
  | some taskIndex =>
      let deletedTask := tasks.getD taskIndex default
      let tasks2 := tasks.eraseIdx taskIndex
      if saveOk then
        ({ success := true,
           message := "Task \"" ++ deletedTask.title ++ "\" has been deleted",
           data := some true, error := none }, tasks2)
      else
        ({ success := false, message := "Error when deleting task",
           data := none, error := some "Failed to save task" }, tasks2)

/-- Outcome of a JavaScript async method call: a settled response, or a fault
that escaped the callee uncaught (its promise rejects). -/
inductive JsOutcome (α : Type) where
  | ok : α → JsOutcome α
  | thrown : String → JsOutcome α
deriving DecidableEq, Repr

/-- `TaskService.updateTaskStatus` as written is
`return this.udpateTask(id, status );` (braces around `status` elided here);
the class declares no member named `udpateTask` — the update method is spelled
`updateTask` — so the call throws a `TypeError`, and this method body has no
`try`/`catch` of its own, so the fault escapes uncaught. -/
def updateTaskStatus (tasks : List Task) (id : String) (status : TaskStatus)
    (now : Int) (saveOk : Bool) : JsOutcome (ApiResponse Task × List Task) :=
  JsOutcome.thrown "TypeError: this.udpateTask is not a function"

/-- `Boolean(task.description?.trim())` from `applyFilters`. -/
def hasDesc (task : Task) : Bool :=
  match task.description with
  | some d => jsTrim d != ""
  | none => false

/-- Predicate of `TaskService.applyFilters`: the four early-return checks of
the source, in order. -/
def taskPassesFilters (filters : TaskFilterOptions) (task : Task) : Bool :=
  if (match filters.status with
      | some s => task.status != s
      | none => false) then false
  else if (match filters.hasDescription with
      | some hd => hasDesc task != hd
      | none => false) then false
  else if (match filters.dueBefore, task.dueDate with
      | some b, some d => decide (d > b)
      | _, _ => false) then false
  else if (match filters.dueAfter, task.dueDate with
      | some a, some d => decide (d < a)
      | _, _ => false) then false
  else true

/-- `TaskService.applyFilters`. -/
def applyFilters (tasks : List Task) (filters : TaskFilterOptions) : List Task :=
  tasks.filter (taskPassesFilters filters)

/-- `TaskService.isTaskOverdue`: no due date or a completed status is never
overdue; otherwise overdue means the due date is strictly before `now`. -/
def isTaskOverdue (now : Int) (task : Task) : Bool :=
  match task.dueDate with
  | none => false
  | some d =>
      if task.status == TaskStatus.COMPLETED then false
      else decide (d < now)

/-- Interface `TaskStats` from `TaskService.ts`. -/
structure TaskStats where
  total : Nat
  todo : Nat
  inProgress : Nat
  completed : Nat
  overdue : Nat
deriving DecidableEq, Repr

/-- `TaskService.getTaskStats`: counts by status plus the overdue count. -/
def getTaskStats (tasks : List Task) (now : Int) : ApiResponse TaskStats :=
  { success := true
    message := "Successfully get task stats"
    data := some
      { total := tasks.length
        todo := (tasks.filter fun t => t.status == TaskStatus.TODO).length
        inProgress := (tasks.filter fun t => t.status == TaskStatus.IN_PROGRESS).length
        completed := (tasks.filter fun t => t.status == TaskStatus.COMPLETED).length
        overdue := (tasks.filter (isTaskOverdue now)).length }
    error := none }

/-- JSON shape of one task inside the tasks file: the object that
`JSON.stringify` writes, with `Date` fields as ISO strings (via `toJSON`) and
optional fields possibly absent. -/
structure StoredTask where
  id : String
  title : String
  description : Option String
  status : TaskStatus
  createdAt : String
  updatedAt : String
  dueDate : Option String
deriving DecidableEq, Repr

/-- File system seen by `fileUtils.ts`: a finite map from paths to parsed JSON
documents, each document being the stored array of tasks. -/
structure FileSystem where
  files : List (String × List StoredTask)
deriving DecidableEq, Repr

/-- `fs.existsSync`. -/
def FileSystem.existsFile (fs : FileSystem) (p : String) : Bool :=
  fs.files.any (fun f => f.1 == p)

/-- `fs.promises.readFile` followed by `JSON.parse`. -/
def FileSystem.readDoc? (fs : FileSystem) (p : String) : Option (List StoredTask) :=
  (fs.files.find? (fun f => f.1 == p)).map (fun f => f.2)

/-- `fs.promises.writeFile`: full overwrite of the document at `p`. -/
def FileSystem.write (fs : FileSystem) (p : String) (doc : List StoredTask) :
    FileSystem :=
  ⟨(p, doc) :: fs.files.filter (fun f => f.1 != p)⟩

/-- `path.join`. -/
def pathJoin (dir file : String) : String := dir ++ "/" ++ file

/-- `DATA_DIR` (the `__dirname`-relative prefix is abbreviated away). -/
def DATA_DIR : String := "data"

/-- `TASKS_FILE = path.join(DATA_DIR, 'tasks.json')`. -/
def TASKS_FILE : String := pathJoin DATA_DIR "tasks.json"

/-- `ensureTasksFile`: writes an empty array if the tasks file is absent. -/
def ensureTasksFile (fs : FileSystem) : FileSystem :=
  if fs.existsFile TASKS_FILE then fs else fs.write TASKS_FILE []

/-- One task as `saveTasks`'s `JSON.stringify` serializes it: `Date` fields go
through `toISOString`, modelled by the parameter `toIso`. -/
def storedOfTask (toIso : Int → String) (t : Task) : StoredTask :=
  { id := t.id
    title := t.title
    description := t.description
    status := t.status
    createdAt := toIso t.createdAt
    updatedAt := toIso t.updatedAt
    dueDate := t.dueDate.map toIso }

/-- Re-hydration done by `loadTasks`: spread of the parsed object with the
date fields replaced, `new Date(...)` modelled by the parameter `parseIso`;
`dueDate` uses a truthiness test, so an empty string would become absent. -/
def taskOfStored (parseIso : String → Int) (s : StoredTask) : Task :=
  { id := s.id
    title := s.title
    description := s.description
    status := s.status
    createdAt := parseIso s.createdAt
    updatedAt := parseIso s.updatedAt
    dueDate :=
      match s.dueDate with
      | some d => if d == "" then none else some (parseIso d)
      | none => none }

/-- `loadTasks` from `fileUtils.ts`: ensure the file, read and parse it, map
every stored task through re-hydration; the `catch` branch yields `[]`. -/
def loadTasks (fs : FileSystem) (parseIso : String → Int) :
    List Task × FileSystem :=
  let fs2 := ensureTasksFile fs
  match fs2.readDoc? TASKS_FILE with
  | some doc => (doc.map (taskOfStored parseIso), fs2)
  | none => ([], fs2)

/-- `saveTasks` from `fileUtils.ts`: ensure the file, serialize the whole
collection, overwrite; a failed write is caught and reported as `false`. -/
def saveTasks (fs : FileSystem) (tasks : List Task) (toIso : Int → String)
    (writeFails : Bool) : Bool × FileSystem :=
  let fs2 := ensureTasksFile fs
  if writeFails then (false, fs2)
  else (true, fs2.write TASKS_FILE (tasks.map (storedOfTask toIso)))

/-- The `timestamp` variable of `backupTasks`:
`new Date().toISOString().replace(/[:.]/g, '-')`. -/
def backupTimestamp (nowIso : String) : String :=
  String.mk (nowIso.data.map fun c => if c == ':' || c == '.' then '-' else c)

/-- `backupTasks` from `fileUtils.ts`.  The backup file name is built from the
SINGLE-QUOTED literal `'tasks_backup_$\x7btimestamp\x7d.json'` — an ordinary
string, not a backtick template — so the computed `timestamp` variable is
never interpolated and the destination name is the same constant on every
call. -/
def backupTasks (fs : FileSystem) (nowIso : String) (copyFails : Bool) :
    Bool × FileSystem :=
  if !(fs.existsFile TASKS_FILE) then (true, fs)
  else
    let timestamp := backupTimestamp nowIso
    let backupFile := pathJoin DATA_DIR "tasks_backup_$\x7btimestamp\x7d.json"
    if copyFails then (false, fs)
    else
      match fs.readDoc? TASKS_FILE with
      | some doc => (true, fs.write backupFile doc)
      | none => (true, fs)

/-! Concrete sample data used by the witness theorems. -/

/-- Sample task used by witnesses. -/
def sampleTask : Task :=
  { id := "task_1", title := "Write spec", description := some "desc",
    status := TaskStatus.TODO, createdAt := 0, updatedAt := 0, dueDate := some 50 }

/-- Second sample task (distinct id, completed, overdue-looking date). -/
def sampleTask2 : Task :=
  { id := "task_2", title := "Ship it", description := none,
    status := TaskStatus.COMPLETED, createdAt := 1, updatedAt := 1, dueDate := some 10 }

/-- Patch that provides no field at all. -/
def emptyPatch : UpdateTaskInput :=
  { title := none, description := none, status := none, dueDate := none }

/-! Theorems for the spec claims. -/

/-- C1: on an id absent from the collection, `updateTask` does fail and does
leave the collection unchanged, but the error code it returns is the string
`INVALID_TITLE` — not the `TASK_NOT_FOUND` the claim states (the source's
not-found branch carries the message `Cannot find specified task` together
with the `INVALID_TITLE` code). -/
theorem updateTask_absent_id_returns_INVALID_TITLE (tasks : List Task)
    (id : String) (updateData : UpdateTaskInput) (now : Int) (saveOk : Bool)
    (habs : ∀ t ∈ tasks, t.id ≠ id) :
    updateTask tasks id updateData now saveOk =
      ({ success := false, message := "Cannot find specified task",
         data := none, error := some "INVALID_TITLE" }, tasks) := by
  have hf : tasks.findIdx? (fun t => t.id == id) = none := by
    rw [List.findIdx?_eq_none_iff]
    intro t ht
    simpa using habs t ht
  simp [updateTask, hf]

/-- Witness for C1 at the concrete failing input: empty collection, id
`task_1`, empty patch. -/
theorem updateTask_absent_id_returns_INVALID_TITLE_witness :
    updateTask [] "task_1" emptyPatch 0 true =
      ({ success := false, message := "Cannot find specified task",
         data := none, error := some "INVALID_TITLE" }, []) :=
  updateTask_absent_id_returns_INVALID_TITLE [] "task_1" emptyPatch 0 true
    (by simp)

/-- C2: `updateTaskStatus` never settles with the result of
`updateTask(id, status patch)`: the misspelled member access `udpateTask`
makes every call reject with an uncaught `TypeError`, so the method is not
the delegating wrapper the claim describes and the fault does escape it. -/
theorem updateTaskStatus_always_throws (tasks : List Task) (id : String)
    (status : TaskStatus) (now : Int) (saveOk : Bool) :
    updateTaskStatus tasks id status now saveOk =
      JsOutcome.thrown "TypeError: this.udpateTask is not a function" ∧
    ∀ r, updateTaskStatus tasks id status now saveOk ≠ JsOutcome.ok r := by
  refine ⟨rfl, fun r h => ?_⟩
  simp [updateTaskStatus] at h

/-- Witness for C2 at a concrete input. -/
theorem updateTaskStatus_always_throws_witness :
    updateTaskStatus [sampleTask] "task_1" TaskStatus.COMPLETED 0 true =
      JsOutcome.thrown "TypeError: this.udpateTask is not a function" :=
  (updateTaskStatus_always_throws [sampleTask] "task_1" TaskStatus.COMPLETED
    0 true).1

/-- C3: with the tasks file present, `backupTasks` copies it to the CONSTANT
destination name, the literal characters of the unexpanded placeholder
`tasks_backup_$\x7btimestamp\x7d.json`: two calls at different clock readings
produce identical results, so the backup name does not embed the current
timestamp.  The remaining parts of the claim do hold: a missing file is a
no-op success, and a failed copy yields `false`. -/
theorem backupTasks_name_has_no_timestamp :
    ((backupTasks ⟨[(TASKS_FILE, [])]⟩ "2024-01-01T00:00:00.000Z" false).2.files =
      [(pathJoin DATA_DIR "tasks_backup_$\x7btimestamp\x7d.json", []),
       (TASKS_FILE, [])]) ∧
    (backupTasks ⟨[(TASKS_FILE, [])]⟩ "2024-01-01T00:00:00.000Z" false =
      backupTasks ⟨[(TASKS_FILE, [])]⟩ "2025-06-15T12:34:56.789Z" false) ∧
    (backupTasks ⟨[]⟩ "2024-01-01T00:00:00.000Z" false = (true, ⟨[]⟩)) ∧
    ((backupTasks ⟨[(TASKS_FILE, [])]⟩ "2024-01-01T00:00:00.000Z" true).1 =
      false) := by
  refine ⟨?_, ?_, ?_, ?_⟩ <;> rfl

/-- C7: a title that trims to empty makes `createTask` fail with
`INVALID_TITLE`; the collection is returned unchanged and the result does not
depend on the store (the save branch is never reached). -/
theorem createTask_blank_title_rejected (tasks : List Task)
    (input : CreateTaskInput) (newId : String) (now : Int) (saveOk : Bool)
    (h : jsTrim input.title = "") :
    createTask tasks input newId now saveOk =
      ({ success := false, message := "Task title. cannot be empty",
         data := none, error := some "INVALID_TITLE" }, tasks) := by
  simp [createTask, h]

/-- Witness for C7: whitespace-only title on a nonempty collection. -/
theorem createTask_blank_title_rejected_witness :
    createTask [sampleTask]
      ({ title := "   ", description := none, dueDate := none } :
        CreateTaskInput) "task_9" 7 true =
      ({ success := false, message := "Task title. cannot be empty",
         data := none, error := some "INVALID_TITLE" }, [sampleTask]) :=
  createTask_blank_title_rejected [sampleTask]
    ({ title := "   ", description := none, dueDate := none } :
      CreateTaskInput) "task_9" 7 true (by decide)

/-- C4: when the store's save fails, each mutating operation reports failure
while the in-memory collection keeps the already-applied change — the final
state is exactly the state a successful save would have left (no rollback) —
and, concretely, a task created by a failed `createTask` is still in memory. -/
theorem save_failure_keeps_inMemory_change (tasks : List Task)
    (input : CreateTaskInput) (newId : String) (now : Int)
    (uid did : String) (u : UpdateTaskInput) :
    ((createTask tasks input newId now false).1.success = false ∧
      (createTask tasks input newId now false).2 =
        (createTask tasks input newId now true).2) ∧
    ((updateTask tasks uid u now false).1.success = false ∧
      (updateTask tasks uid u now false).2 =
        (updateTask tasks uid u now true).2) ∧
    ((deleteTask tasks did false).1.success = false ∧
      (deleteTask tasks did false).2 = (deleteTask tasks did true).2) ∧
    (jsTrim input.title ≠ "" →
      newTaskOf input newId now ∈ (createTask tasks input newId now false).2) := by
  refine ⟨?_, ?_, ?_, ?_⟩
  · by_cases h : jsTrim input.title = "" <;> simp [createTask, h]
  · cases hf : List.findIdx? (fun t => t.id == uid) tasks <;>
      by_cases ht : u.title.any (fun t => jsTrim t == "") <;>
        simp [updateTask, hf, ht]
  · cases hf : List.findIdx? (fun t => t.id == did) tasks <;>
      simp [deleteTask, hf]
  · intro h
    simp [createTask, h]

/-- Witness for C4: the concrete task appended by a `createTask` whose save
failed is still in the final collection. -/
theorem save_failure_keeps_inMemory_change_witness :
    newTaskOf ({ title := "New", description := none, dueDate := none } :
        CreateTaskInput) "task_9" 5 ∈
      (createTask [sampleTask]
        ({ title := "New", description := none, dueDate := none } :
          CreateTaskInput) "task_9" 5 false).2 :=
  (save_failure_keeps_inMemory_change [sampleTask]
    ({ title := "New", description := none, dueDate := none } :
      CreateTaskInput) "task_9" 5 "task_1" "task_1" emptyPatch).2.2.2
    (by decide)

/-- Helper: the early-return chain of `taskPassesFilters` as a conjunction of
the negated exclusion conditions. -/
theorem taskPassesFilters_eq_and (f : TaskFilterOptions) (t : Task) :
    taskPassesFilters f t =
      (!(match f.status with | some s => t.status != s | none => false) &&
       !(match f.hasDescription with
         | some hd => hasDesc t != hd
         | none => false) &&
       !(match f.dueBefore, t.dueDate with
         | some b, some d => decide (d > b)
         | _, _ => false) &&
       !(match f.dueAfter, t.dueDate with
         | some a, some d => decide (d < a)
         | _, _ => false)) := by
  unfold taskPassesFilters
  cases h1 : (match f.status with | some s => t.status != s | none => false) <;>
    cases h2 : (match f.hasDescription with
      | some hd => hasDesc t != hd
      | none => false) <;>
      cases h3 : (match f.dueBefore, t.dueDate with
        | some b, some d => decide (d > b)
        | _, _ => false) <;>
        cases h4 : (match f.dueAfter, t.dueDate with
          | some a, some d => decide (d < a)
          | _, _ => false) <;>
          simp [h1, h2, h3, h4]

/-- C5: a task is in the filtered list exactly when it is in the input and
passes every provided criterion jointly: exact status match, the description
presence test, and the two date bounds.  A task with no due date is never
excluded by `dueBefore`/`dueAfter`; one with due date `d` passes a `dueBefore`
bound exactly when `d` is not strictly later, and a `dueAfter` bound exactly
when `d` is not strictly earlier. -/
theorem applyFilters_mem_iff (tasks : List Task) (filters : TaskFilterOptions)
    (t : Task) :
    t ∈ applyFilters tasks filters ↔
      t ∈ tasks ∧
      (∀ s, filters.status = some s → t.status = s) ∧
      (∀ b, filters.hasDescription = some b → hasDesc t = b) ∧
      (∀ bound, filters.dueBefore = some bound →
        ∀ d, t.dueDate = some d → d ≤ bound) ∧
      (∀ bound, filters.dueAfter = some bound →
        ∀ d, t.dueDate = some d → bound ≤ d) := by
  simp only [applyFilters, List.mem_filter]
  refine and_congr_right fun _ => ?_
  rw [taskPassesFilters_eq_and]
  rcases filters with ⟨fs, fh, fb, fa⟩
  cases fs <;> cases fh <;> cases fb <;> cases fa <;>
    cases hd : t.dueDate <;>
      simp [hd, not_lt, and_assoc]

/-- Witness for C5 on concrete data: with a `dueBefore` bound of `100` the
sample task (due `50`) is kept and stays in the filtered list. -/
theorem applyFilters_mem_iff_witness :
    sampleTask ∈ applyFilters [sampleTask]
      ({ status := none, hasDescription := none, dueBefore := some 100,
         dueAfter := none } : TaskFilterOptions) :=
  (applyFilters_mem_iff [sampleTask]
    ({ status := none, hasDescription := none, dueBefore := some 100,
       dueAfter := none } : TaskFilterOptions) sampleTask).mpr (by decide)

/-- Third sample task: in progress and past its due date at time `20`. -/
def sampleTask3 : Task :=
  { id := "task_3", title := "Review", description := none,
    status := TaskStatus.IN_PROGRESS, createdAt := 2, updatedAt := 2,
    dueDate := some 10 }

/-- Stats of the three sample tasks at time `20` (the spec's own example:
the completed overdue-looking task is not counted as overdue). -/
def sampleStats : TaskStats :=
  { total := 3, todo := 1, inProgress := 1, completed := 1, overdue := 1 }

/-- C6: `getTaskStats` succeeds and reports `total` = number of tasks, each
status counter counting the tasks with exactly that status, and `overdue`
counting the overdue predicate, which holds exactly for a task having a due
date strictly before `now` whose status is not `COMPLETED`. -/
theorem getTaskStats_counts (tasks : List Task) (now : Int) :
    (getTaskStats tasks now).success = true ∧
    (∃ s, (getTaskStats tasks now).data = some s ∧
      s.total = tasks.length ∧
      s.todo = tasks.countP (fun t => decide (t.status = TaskStatus.TODO)) ∧
      s.inProgress =
        tasks.countP (fun t => decide (t.status = TaskStatus.IN_PROGRESS)) ∧
      s.completed =
        tasks.countP (fun t => decide (t.status = TaskStatus.COMPLETED)) ∧
      s.overdue = tasks.countP (isTaskOverdue now)) ∧
    ∀ t : Task, isTaskOverdue now t = true ↔
      (∃ d, t.dueDate = some d ∧ d < now) ∧
      t.status ≠ TaskStatus.COMPLETED := by
  refine ⟨rfl, ⟨_, rfl, rfl, ?_, ?_, ?_, ?_⟩, ?_⟩
  · exact (List.countP_eq_length_filter _ _).symm
  · exact (List.countP_eq_length_filter _ _).symm
  · exact (List.countP_eq_length_filter _ _).symm
  · exact (List.countP_eq_length_filter _ _).symm
  · intro t
    unfold isTaskOverdue
    cases hd : t.dueDate <;>
      by_cases hc : t.status = TaskStatus.COMPLETED <;> simp [hd, hc]

/-- Witness for C6 on the spec's stats example: one todo, one in-progress
overdue, one completed with a past due date — overdue counts only one. -/
theorem getTaskStats_counts_witness :
    (getTaskStats [sampleTask, sampleTask2, sampleTask3] 20).success = true ∧
    (getTaskStats [sampleTask, sampleTask2, sampleTask3] 20).data =
      some sampleStats :=
  ⟨(getTaskStats_counts [sampleTask, sampleTask2, sampleTask3] 20).1,
    by decide⟩

/-- Helper: each task has exactly one of the three statuses, so the three
status filters partition the collection. -/
theorem length_status_partition (tasks : List Task) :
    tasks.length =
      (tasks.filter fun t => t.status == TaskStatus.TODO).length +
      (tasks.filter fun t => t.status == TaskStatus.IN_PROGRESS).length +
      (tasks.filter fun t => t.status == TaskStatus.COMPLETED).length := by
  induction tasks with
  | nil => rfl
  | cons t rest ih =>
      cases h : t.status <;> simp [List.filter_cons, h, ih] <;> omega

/-- C10: every successful stats record satisfies
`total = todo + inProgress + completed`, since each task carries exactly one
of the three status values. -/
theorem getTaskStats_total_eq_sum (tasks : List Task) (now : Int)
    (s : TaskStats) (h : (getTaskStats tasks now).data = some s) :
    s.total = s.todo + s.inProgress + s.completed := by
  simp only [getTaskStats, Option.some.injEq] at h
  subst h
  exact length_status_partition tasks

/-- Witness for C10 on the three sample tasks. -/
theorem getTaskStats_total_eq_sum_witness :
    sampleStats.total =
      sampleStats.todo + sampleStats.inProgress + sampleStats.completed :=
  getTaskStats_total_eq_sum [sampleTask, sampleTask2, sampleTask3] 20
    sampleStats (by decide)

/-- Helper: with unique ids, after removing the index found for `id` no task
with that id remains. -/
theorem eraseIdx_no_id (tasks : List Task) (id : String) (i : Nat)
    (huniq : (tasks.map Task.id).Nodup)
    (hidx : tasks.findIdx? (fun t => t.id == id) = some i) :
    ∀ x ∈ tasks.eraseIdx i, (x.id == id) = false := by
  obtain ⟨hlt, hp, -⟩ := List.findIdx?_eq_some_iff_getElem.mp hidx
  have hle : tasks.countP (fun t => t.id == id) ≤ 1 := by
    have hc := List.nodup_iff_count_le_one.mp huniq id
    calc tasks.countP (fun t => t.id == id)
        = (tasks.map Task.id).countP (fun x => x == id) := by
          rw [List.countP_map]; rfl
      _ = (tasks.map Task.id).count id := rfl
      _ ≤ 1 := hc
  have hsplit : tasks.countP (fun t => t.id == id) =
      (tasks.eraseIdx i).countP (fun t => t.id == id) + 1 := by
    conv_lhs => rw [← List.take_append_drop i tasks]
    rw [List.drop_eq_getElem_cons hlt, List.eraseIdx_eq_take_drop_succ,
      List.countP_append, List.countP_append, List.countP_cons]
    simp only [hp, if_true]
    omega
  have hzero : (tasks.eraseIdx i).countP (fun t => t.id == id) = 0 := by omega
  intro x hx
  have hnx := List.countP_eq_zero.mp hzero x hx
  simpa using hnx

/-- C8: with unique ids and a successful save, deleting a present id succeeds
with data `true`, shrinks the collection by exactly one, and a subsequent
`getTaskById` for that id fails with `TASK_NOT_FOUND`. -/
theorem deleteTask_present_id (tasks : List Task) (id : String)
    (huniq : (tasks.map Task.id).Nodup) (hmem : ∃ t ∈ tasks, t.id = id) :
    (deleteTask tasks id true).1.success = true ∧
    (deleteTask tasks id true).1.data = some true ∧
    (deleteTask tasks id true).2.length + 1 = tasks.length ∧
    (getTaskById (deleteTask tasks id true).2 id).success = false ∧
    (getTaskById (deleteTask tasks id true).2 id).error =
      some "TASK_NOT_FOUND" := by
  have hex : ∃ t ∈ tasks, (fun t => t.id == id) t = true := by
    obtain ⟨t, ht, hid⟩ := hmem
    exact ⟨t, ht, by simp [hid]⟩
  have hidx : tasks.findIdx? (fun t => t.id == id) =
      some (tasks.findIdx (fun t => t.id == id)) :=
    List.findIdx?_eq_some_of_exists hex
  have hlt : tasks.findIdx (fun t => t.id == id) < tasks.length :=
    List.findIdx_lt_length.mpr hex
  have herase := eraseIdx_no_id tasks id _ huniq hidx
  have hfind : (tasks.eraseIdx (tasks.findIdx (fun t => t.id == id))).find?
      (fun t => t.id == id) = none :=
    List.find?_eq_none.mpr (by intro x hx; simp [herase x hx])
  have hdel : deleteTask tasks id true =
      ({ success := true,
         message := "Task \"" ++
           (tasks.getD (tasks.findIdx (fun t => t.id == id)) default).title ++
           "\" has been deleted",
         data := some true, error := none },
       tasks.eraseIdx (tasks.findIdx (fun t => t.id == id))) := by
    simp [deleteTask, hidx]
  rw [hdel]
  refine ⟨rfl, rfl, ?_, ?_, ?_⟩
  · rw [List.length_eraseIdx_of_lt hlt]; omega
  · simp [getTaskById, hfind]
  · simp [getTaskById, hfind]

/-- Witness for C8: deleting `task_1` from the two-task sample collection. -/
theorem deleteTask_present_id_witness :
    (deleteTask [sampleTask, sampleTask2] "task_1" true).1.success = true ∧
    (deleteTask [sampleTask, sampleTask2] "task_1" true).1.data = some true ∧
    (deleteTask [sampleTask, sampleTask2] "task_1" true).2.length + 1 =
      [sampleTask, sampleTask2].length ∧
    (getTaskById (deleteTask [sampleTask, sampleTask2] "task_1" true).2
      "task_1").success = false ∧
    (getTaskById (deleteTask [sampleTask, sampleTask2] "task_1" true).2
      "task_1").error = some "TASK_NOT_FOUND" :=
  deleteTask_present_id [sampleTask, sampleTask2] "task_1" (by decide)
    (by decide)

/-- Helper: writing a document makes the path exist. -/
theorem existsFile_write (fs : FileSystem) (p : String)
    (doc : List StoredTask) : (fs.write p doc).existsFile p = true := by
  simp [FileSystem.write, FileSystem.existsFile]

/-- Helper: reading back a just-written path yields the written document. -/
theorem readDoc?_write (fs : FileSystem) (p : String) (doc : List StoredTask) :
    (fs.write p doc).readDoc? p = some doc := by
  simp [FileSystem.write, FileSystem.readDoc?]

/-- Helper: re-hydrating a stored task undoes serialization whenever the date
codec round-trips and never yields the empty string. -/
theorem taskOfStored_storedOfTask (toIso : Int → String)
    (parseIso : String → Int) (hinv : ∀ x, parseIso (toIso x) = x)
    (hne : ∀ x, toIso x ≠ "") (t : Task) :
    taskOfStored parseIso (storedOfTask toIso t) = t := by
  rcases t with ⟨id, title, desc, status, ca, ua, dd⟩
  cases dd <;> simp [taskOfStored, storedOfTask, hinv, hne]

/-- C9: serializing the whole collection with `saveTasks` and re-reading it
with `loadTasks` reproduces the same tasks with equal field values, for every
date codec that round-trips (`new Date` undoing `toISOString`) and never
serializes a date to the empty string. -/
theorem saveTasks_loadTasks_roundtrip (fs : FileSystem) (tasks : List Task)
    (toIso : Int → String) (parseIso : String → Int)
    (hinv : ∀ x, parseIso (toIso x) = x) (hne : ∀ x, toIso x ≠ "") :
    (loadTasks (saveTasks fs tasks toIso false).2 parseIso).1 = tasks := by
  have h1 : (saveTasks fs tasks toIso false).2 =
      (ensureTasksFile fs).write TASKS_FILE (tasks.map (storedOfTask toIso)) := by
    simp [saveTasks]
  have h2 : ensureTasksFile ((ensureTasksFile fs).write TASKS_FILE
      (tasks.map (storedOfTask toIso))) =
      (ensureTasksFile fs).write TASKS_FILE (tasks.map (storedOfTask toIso)) := by
    simp [ensureTasksFile, existsFile_write]
  rw [h1]
  unfold loadTasks
  rw [h2]
  simp only [readDoc?_write, List.map_map]
  rw [show taskOfStored parseIso ∘ storedOfTask toIso =
      fun t => taskOfStored parseIso (storedOfTask toIso t) from rfl]
  rw [List.map_congr_left
    (fun t _ => taskOfStored_storedOfTask toIso parseIso hinv hne t)]
  exact List.map_id tasks

/-- Concrete date codec for the round-trip witness: a sign marker followed by
a unary run of characters. -/
def unaryIso (x : Int) : String :=
  match x with
  | Int.ofNat n => String.mk ('+' :: List.replicate n 'a')
  | Int.negSucc n => String.mk ('-' :: List.replicate n 'a')

/-- Left inverse of `unaryIso`. -/
def unaryParse (s : String) : Int :=
  match s.data with
  | '+' :: r => Int.ofNat r.length
  | '-' :: r => Int.negSucc r.length
  | _ => 0

/-- The concrete codec round-trips. -/
theorem unaryParse_unaryIso (x : Int) : unaryParse (unaryIso x) = x := by
  cases x <;> simp [unaryIso, unaryParse]

/-- The concrete codec never yields the empty string. -/
theorem unaryIso_ne_empty (x : Int) : unaryIso x ≠ "" := by
  intro h
  have hd := congrArg String.data h
  have he : ("" : String).data = [] := rfl
  rw [he] at hd
  cases x <;> simp [unaryIso] at hd

/-- Witness for C9: the two-task sample collection survives a save/load
round-trip under the concrete codec. -/
theorem saveTasks_loadTasks_roundtrip_witness :
    (loadTasks (saveTasks ⟨[]⟩ [sampleTask, sampleTask2] unaryIso false).2
      unaryParse).1 = [sampleTask, sampleTask2] :=
  saveTasks_loadTasks_roundtrip ⟨[]⟩ [sampleTask, sampleTask2] unaryIso
    unaryParse unaryParse_unaryIso unaryIso_ne_empty

end TaskManager
